import Mathlib

/-
Verification of the eventflow-uganda booking, ticket and payment models.

Shallow embedding of the business-logic methods of
`backend/tickets/models.py`, `backend/bookings/models.py` and
`backend/payments/models.py`.  Django model rows become Lean structures;
each method becomes a pure function returning its boolean result together
with the updated state.  Monetary `Decimal` fields are embedded as `Rat`
(Python `Decimal` arithmetic at these scales is exact), integer counter
fields as `Int` (the `PositiveIntegerField` non-negativity constraint is
stated as an explicit hypothesis where needed), and timestamps as `Int`
(seconds).
-/

namespace EventFlow

/-- Monetary amounts (Python `Decimal`). -/
abbrev Money := ℚ

/-- Timestamps, in seconds (`django.utils.timezone` datetimes). -/
abbrev Time := ℤ

/-- User rows are identified by an id; only identity matters here. -/
abbrev UserId := ℕ

/-! ## TicketType (backend/tickets/models.py, class TicketType) -/

/-- The `sale_status` choices of `TicketType`. -/
inductive SaleStatus where
  | not_started
  | on_sale
  | paused
  | sold_out
  | ended
deriving DecidableEq

/-- The counter and status fields of a `TicketType` row that the
Inventory Ledger operations read and write. -/
structure TicketType where
  quantity : ℤ
  sold_count : ℤ
  reserved_count : ℤ
  sale_status : SaleStatus
deriving DecidableEq

/-- Property `TicketType.available_count`:
`max(0, self.quantity - self.sold_count - self.reserved_count)`. -/
def TicketType.available_count (t : TicketType) : ℤ :=
  max 0 (t.quantity - t.sold_count - t.reserved_count)

/-- Method `TicketType.reserve_tickets(self, quantity)`: if
`quantity <= self.available_count` increment `reserved_count` and return
`True`, else return `False` unchanged. -/
def TicketType.reserve_tickets (t : TicketType) (quantity : ℤ) : Bool × TicketType :=
  if quantity ≤ t.available_count then
    (true, { t with reserved_count := t.reserved_count + quantity })
  else
    (false, t)

/-- Method `TicketType.release_reservation(self, quantity)`:
`self.reserved_count = max(0, self.reserved_count - quantity)`. -/
def TicketType.release_reservation (t : TicketType) (quantity : ℤ) : TicketType :=
  { t with reserved_count := max 0 (t.reserved_count - quantity) }

/-- Method `TicketType.sell_tickets(self, quantity)`: if
`quantity <= available_count + reserved_count`, draw the quantity from the
reservation pool first (clamping `reserved_count` at zero), increment
`sold_count`, and flip `sale_status` to `sold_out` when availability hits
zero; otherwise return `False` unchanged. -/
def TicketType.sell_tickets (t : TicketType) (quantity : ℤ) : Bool × TicketType :=
  if quantity ≤ t.available_count + t.reserved_count then
    let t1 :=
      if quantity ≤ t.reserved_count then
        { t with reserved_count := t.reserved_count - quantity }
      else
        { t with reserved_count := 0 }
    let t2 := { t1 with sold_count := t1.sold_count + quantity }
    let t3 :=
      if t2.available_count = 0 then { t2 with sale_status := SaleStatus.sold_out } else t2
    (true, t3)
  else
    (false, t)

/-- The conservation invariant of the spec:
`sold_count + reserved_count <= quantity`. -/
def TicketType.conservation (t : TicketType) : Prop :=
  t.sold_count + t.reserved_count ≤ t.quantity

instance (t : TicketType) : Decidable t.conservation := by
  unfold TicketType.conservation
  exact inferInstance

/-! ## Ticket (backend/tickets/models.py, class Ticket) -/

/-- The `status` choices of `Ticket`. -/
inductive TicketStatus where
  | active
  | used
  | refunded
  | transferred
  | cancelled
  | expired
deriving DecidableEq

/-- The fields of a `Ticket` row read and written by check-in and
issuance.  The `section` column is embedded as `seat_section` because
`section` is a Lean keyword. -/
structure Ticket where
  status : TicketStatus
  is_checked_in : Bool
  check_in_time : Option Time
  check_in_location : String
  checked_in_by : Option UserId
  expires_at : Option Time
  purchase_price : Money
  service_fee_paid : Money
  tax_paid : Money
  total_paid : Money
  seat_number : String
  row_number : String
  seat_section : String
  holder_name : String
  holder_email : String
  holder_phone : String
deriving DecidableEq

/-- Property `Ticket.is_valid`: `status == 'active' and not is_checked_in
and (not expires_at or now <= expires_at)`. -/
def Ticket.is_valid (t : Ticket) (now : Time) : Bool :=
  decide (t.status = TicketStatus.active) && (! t.is_checked_in) &&
    (match t.expires_at with
     | none => true
     | some e => decide (now ≤ e))

/-- Method `Ticket.check_in(self, location, checked_in_by)`: if
`self.is_valid and not self.is_checked_in`, record the check-in and move
`status` to `used`; otherwise return `False` unchanged. -/
def Ticket.check_in (t : Ticket) (now : Time) (location : String)
    (checked_in_by : Option UserId) : Bool × Ticket :=
  if t.is_valid now && ! t.is_checked_in then
    (true,
      { t with
          is_checked_in := true
          check_in_time := some now
          check_in_location := location
          checked_in_by := checked_in_by
          status := TicketStatus.used })
  else
    (false, t)

/-- The `start_date`/`end_date` of the event a ticket admits to
(`events.Event`; only the two timestamps are read by check-in). -/
structure EventTimes where
  start_date : Time
  end_date : Time
deriving DecidableEq

/-- The two-hour early check-in window of
`TicketCheckInSerializer.validate`, in seconds. -/
def twoHours : ℤ := 7200

/-- The distinguishable rejection reasons raised by
`TicketCheckInSerializer` (`backend/tickets/serializers.py`). -/
inductive CheckInError where
  | ticket_not_valid
  | already_checked_in
  | event_ended
  | not_yet_open
deriving DecidableEq

/-- Method `TicketCheckInSerializer.validate`, given the resolved ticket:
raises, in order, "Ticket is not valid for check-in" when `not
ticket.is_valid`, "Ticket has already been checked in" when
`ticket.is_checked_in`, "Event has already ended" when
`event.end_date < now`, and "Check-in not yet available" when
`now < event.start_date - 2h`; returns the ticket otherwise. -/
def check_in_validate (t : Ticket) (ev : EventTimes) (now : Time) : Option CheckInError :=
  if ! t.is_valid now then some CheckInError.ticket_not_valid
  else if t.is_checked_in then some CheckInError.already_checked_in
  else if ev.end_date < now then some CheckInError.event_ended
  else if now < ev.start_date - twoHours then some CheckInError.not_yet_open
  else none

/-- The repository's check-in operation: serializer validation
(`check_in_validate`) followed by `Ticket.check_in` on the validated
ticket. -/
def check_in_flow (t : Ticket) (ev : EventTimes) (now : Time) (location : String)
    (checked_in_by : Option UserId) : Except CheckInError Ticket :=
  match check_in_validate t ev now with
  | some e => Except.error e
  | none => Except.ok (t.check_in now location checked_in_by).2

/-! ## Booking (backend/bookings/models.py, class Booking / BookingItem) -/

/-- The `status` choices of `Booking`. -/
inductive BookingStatus where
  | pending
  | confirmed
  | paid
  | cancelled
  | expired
  | refunded
  | partially_refunded
deriving DecidableEq

/-- The `payment_status` choices of `Booking`. -/
inductive BookingPayStatus where
  | pending
  | processing
  | paid
  | failed
  | refunded
  | partially_refunded
deriving DecidableEq

/-- The fields of a `Booking` row that the lifecycle methods and ticket
issuance read and write. -/
structure Booking where
  status : BookingStatus
  payment_status : BookingPayStatus
  confirmed_at : Option Time
  cancelled_at : Option Time
  cancellation_reason : String
  cancelled_by : Option UserId
  customer_first_name : String
  customer_last_name : String
  customer_email : String
  customer_phone : String
deriving DecidableEq

/-- Property `Booking.customer_full_name`. -/
def Booking.customer_full_name (b : Booking) : String :=
  b.customer_first_name ++ " " ++ b.customer_last_name

/-- Method `Booking.confirm_booking(self)`: `pending -> confirmed`,
recording `confirmed_at`; `False` from any other status. -/
def Booking.confirm_booking (b : Booking) (now : Time) : Bool × Booking :=
  if b.status = BookingStatus.pending then
    (true, { b with status := BookingStatus.confirmed, confirmed_at := some now })
  else
    (false, b)

/-- Method `Booking.mark_as_paid(self)`: guarded on `payment_status in
['pending', 'processing']` only, it sets both `payment_status` and
`status` to `paid`.  The method body performs no other action — in
particular it does not create any `Ticket` rows. -/
def Booking.mark_as_paid (b : Booking) : Bool × Booking :=
  if b.payment_status = BookingPayStatus.pending ∨
      b.payment_status = BookingPayStatus.processing then
    (true, { b with payment_status := BookingPayStatus.paid, status := BookingStatus.paid })
  else
    (false, b)

/-- The seat dictionaries of `BookingItem.assigned_seats`. -/
structure SeatInfo where
  seat_number : String
  row_number : String
  seat_section : String
deriving DecidableEq

/-- A `BookingItem` row together with its `ticket_type` row.  Within one
booking the items have pairwise distinct ticket types
(`unique_together = ['booking', 'ticket_type']`), so inlining each item's
ticket type loses nothing for single-booking reasoning. -/
structure BookingItem where
  ticket_type : TicketType
  quantity : ℤ
  unit_price : Money
  service_fee_per_ticket : Money
  tax_per_ticket : Money
  assigned_seats : List SeatInfo
deriving DecidableEq

/-- Property `BookingItem.grand_total_per_ticket`. -/
def BookingItem.grand_total_per_ticket (it : BookingItem) : Money :=
  it.unit_price + it.service_fee_per_ticket + it.tax_per_ticket

/-- Method `BookingItem.create_tickets(self)`: `for i in
range(self.quantity)` create a `Ticket` with the item's price breakdown,
the booking's holder contact data, and the `i`-th assigned seat when one
exists (blank seat fields otherwise).  A negative quantity gives the
empty range, as in Python. -/
def BookingItem.create_tickets (it : BookingItem) (b : Booking) : List Ticket :=
  (List.range it.quantity.toNat).map (fun i =>
    let seat :=
      match it.assigned_seats.get? i with
      | some sd => sd
      | none => { seat_number := "", row_number := "", seat_section := "" }
    { status := TicketStatus.active
      is_checked_in := false
      check_in_time := none
      check_in_location := ""
      checked_in_by := none
      expires_at := none
      purchase_price := it.unit_price
      service_fee_paid := it.service_fee_per_ticket
      tax_paid := it.tax_per_ticket
      total_paid := it.grand_total_per_ticket
      seat_number := seat.seat_number
      row_number := seat.row_number
      seat_section := seat.seat_section
      holder_name := b.customer_full_name
      holder_email := b.customer_email
      holder_phone := b.customer_phone })

/-- A booking together with its line items (each carrying its ticket
type) and its issued tickets — the rows reachable from `self.items` and
`self.tickets` in the model methods. -/
structure BookingSys where
  booking : Booking
  items : List BookingItem
  tickets : List Ticket
deriving DecidableEq

/-- Method `Booking.cancel_booking(self, reason, cancelled_by)`: allowed
from `pending | confirmed | paid`; records the cancellation metadata and
sets every associated ticket's status to `cancelled`
(`self.tickets.update(status='cancelled')`).  It does not touch the
items' ticket types.  When `cancelled_by` is `None` the saved row keeps
its previous `cancelled_by` value (`save_fields` omits the column). -/
def BookingSys.cancel_booking (s : BookingSys) (reason : String)
    (cancelled_by : Option UserId) (now : Time) : Bool × BookingSys :=
  if s.booking.status = BookingStatus.pending ∨
      s.booking.status = BookingStatus.confirmed ∨
      s.booking.status = BookingStatus.paid then
    (true,
      { s with
          booking :=
            { s.booking with
                status := BookingStatus.cancelled
                cancelled_at := some now
                cancellation_reason := reason
                cancelled_by :=
                  match cancelled_by with
                  | some u => some u
                  | none => s.booking.cancelled_by }
          tickets := s.tickets.map (fun t => { t with status := TicketStatus.cancelled }) })
  else
    (false, s)

/-- Method `Booking.expire_booking(self)`: only from `status == 'pending'
and payment_status == 'pending'`; sets `status` to `expired` and calls
`release_reservation(item.quantity)` on every item's ticket type. -/
def BookingSys.expire_booking (s : BookingSys) : Bool × BookingSys :=
  if s.booking.status = BookingStatus.pending ∧
      s.booking.payment_status = BookingPayStatus.pending then
    (true,
      { s with
          booking := { s.booking with status := BookingStatus.expired }
          items := s.items.map (fun it =>
            { it with ticket_type := it.ticket_type.release_reservation it.quantity }) })
  else
    (false, s)

/-- Lifting of `Booking.mark_as_paid` to the booking's aggregate: the
method reads and writes only the booking row itself, so items and
tickets are untouched. -/
def BookingSys.mark_as_paid (s : BookingSys) : Bool × BookingSys :=
  let r := s.booking.mark_as_paid
  (r.1, { s with booking := r.2 })

/-! ## Payment (backend/payments/models.py, class Payment) -/

/-- The `status` choices of `Payment`. -/
inductive PaymentStatus where
  | pending
  | processing
  | completed
  | failed
  | cancelled
  | refunded
  | partially_refunded
  | disputed
  | expired
deriving DecidableEq

/-- The fields of a `Payment` row that the lifecycle methods read and
write.  `gateway_response` stands for the raw JSON payload. -/
structure Payment where
  status : PaymentStatus
  amount : Money
  payment_date : Option Time
  gateway_transaction_id : String
  gateway_response : String
  gateway_callback_received : Bool
  retry_count : ℤ
  max_retries : ℤ
  last_retry_at : Option Time
  failure_reason : String
  failure_code : String
deriving DecidableEq

/-- Property `Payment.is_failed`: `status in ['failed', 'cancelled',
'expired']`. -/
def Payment.is_failed (p : Payment) : Prop :=
  p.status = PaymentStatus.failed ∨ p.status = PaymentStatus.cancelled ∨
    p.status = PaymentStatus.expired

instance (p : Payment) : Decidable p.is_failed := by
  unfold Payment.is_failed
  exact inferInstance

/-- Property `Payment.can_retry`: `is_failed and retry_count < max_retries
and booking.status == 'pending'`. -/
def Payment.can_retry (p : Payment) (booking_status : BookingStatus) : Prop :=
  p.is_failed ∧ p.retry_count < p.max_retries ∧ booking_status = BookingStatus.pending

instance (p : Payment) (bs : BookingStatus) : Decidable (p.can_retry bs) := by
  unfold Payment.can_retry
  exact inferInstance

/-- Method `Payment.retry_payment(self)`: when `can_retry`, move back to
`pending`, increment `retry_count`, stamp `last_retry_at` and clear the
failure fields; otherwise return `False` unchanged. -/
def Payment.retry_payment (p : Payment) (booking_status : BookingStatus)
    (now : Time) : Bool × Payment :=
  if p.can_retry booking_status then
    (true,
      { p with
          status := PaymentStatus.pending
          retry_count := p.retry_count + 1
          last_retry_at := some now
          failure_reason := ""
          failure_code := "" })
  else
    (false, p)

/-- A payment together with its booking aggregate (`self.booking`), as
read and written by `Payment.mark_completed`. -/
structure PaymentSys where
  payment : Payment
  booking : Booking
  items : List BookingItem
  tickets : List Ticket
deriving DecidableEq

/-- Method `Payment.mark_completed(self, gateway_transaction_id,
gateway_response)`: only from `pending | processing`; sets `status` to
`completed` and stamps `payment_date`; copies the gateway transaction id
and response when passed truthy (Python treats `None` and `""` alike
here); finally calls `self.booking.mark_as_paid()`.  No code path in the
method — nor anywhere else in the repository — creates `Ticket` rows, so
the tickets collection passes through unchanged. -/
def PaymentSys.mark_completed (s : PaymentSys) (now : Time)
    (gateway_transaction_id : Option String) (gateway_response : Option String) :
    Bool × PaymentSys :=
  if s.payment.status = PaymentStatus.pending ∨
      s.payment.status = PaymentStatus.processing then
    let p1 := { s.payment with status := PaymentStatus.completed, payment_date := some now }
    let p2 :=
      match gateway_transaction_id with
      | none => p1
      | some g => if g = "" then p1 else { p1 with gateway_transaction_id := g }
    let p3 :=
      match gateway_response with
      | none => p2
      | some r =>
          if r = "" then p2
          else { p2 with gateway_response := r, gateway_callback_received := true }
    (true, { s with payment := p3, booking := (s.booking.mark_as_paid).2 })
  else
    (false, s)

/-! ## Refund (backend/payments/models.py, class Refund) -/

/-- The `status` choices of `Refund`. -/
inductive RefundStatus where
  | pending
  | processing
  | completed
  | failed
  | cancelled
deriving DecidableEq

/-- The fields of a `Refund` row that `process_refund`, `approve` and
`complete_refund` read and write. -/
structure Refund where
  refund_amount : Money
  status : RefundStatus
  approved_by : Option UserId
  approved_at : Option Time
  approval_notes : String
  completed_at : Option Time
  gateway_refund_id : String
  reason : String
deriving DecidableEq

/-- A payment together with its `refunds` set
(`related_name='refunds'`). -/
structure PaymentRefundSys where
  payment : Payment
  refunds : List Refund
deriving DecidableEq

/-- Method `Payment.process_refund(self, refund_amount, reason)`: only
when `status == 'completed'`, create a pending `Refund` whose amount is
`refund_amount or self.amount` (Python truthiness: `None` and `0` both
fall back to the full amount).  No check relates the requested amount to
the payment's amount or to previously created refunds. -/
def PaymentRefundSys.process_refund (s : PaymentRefundSys)
    (refund_amount : Option Money) (reason : String) : Bool × PaymentRefundSys :=
  if s.payment.status = PaymentStatus.completed then
    let amt :=
      match refund_amount with
      | none => s.payment.amount
      | some a => if a = 0 then s.payment.amount else a
    (true,
      { s with
          refunds := s.refunds ++
            [{ refund_amount := amt
               status := RefundStatus.pending
               approved_by := none
               approved_at := none
               approval_notes := ""
               completed_at := none
               gateway_refund_id := ""
               reason := reason }] })
  else
    (false, s)

/-- Method `Refund.approve(self, approved_by, notes)` applied to the
`i`-th refund of the payment: only when not yet approved and still
`pending`; records the approval and moves the refund to `processing`. -/
def PaymentRefundSys.approve (s : PaymentRefundSys) (i : ℕ)
    (approved_by : UserId) (now : Time) (notes : String) : Bool × PaymentRefundSys :=
  match s.refunds.get? i with
  | none => (false, s)
  | some r =>
      if r.approved_at = none ∧ r.status = RefundStatus.pending then
        (true,
          { s with
              refunds := s.refunds.set i
                { r with
                    approved_by := some approved_by
                    approved_at := some now
                    approval_notes := notes
                    status := RefundStatus.processing } })
      else
        (false, s)

/-- Method `Refund.complete_refund(self, gateway_refund_id)` applied to
the `i`-th refund: only when the refund is `processing`; marks it
`completed`, then sets the payment's status to `refunded` when
`payment.amount <= refund_amount` (this single refund's amount, not a
cumulative total) and to `partially_refunded` otherwise. -/
def PaymentRefundSys.complete_refund (s : PaymentRefundSys) (i : ℕ)
    (now : Time) (gateway_refund_id : Option String) : Bool × PaymentRefundSys :=
  match s.refunds.get? i with
  | none => (false, s)
  | some r =>
      if r.status = RefundStatus.processing then
        let r1 := { r with status := RefundStatus.completed, completed_at := some now }
        let r2 :=
          match gateway_refund_id with
          | none => r1
          | some g => if g = "" then r1 else { r1 with gateway_refund_id := g }
        let pstatus :=
          if s.payment.amount ≤ r.refund_amount then PaymentStatus.refunded
          else PaymentStatus.partially_refunded
        (true,
          { s with
              payment := { s.payment with status := pstatus }
              refunds := s.refunds.set i r2 })
      else
        (false, s)

/-- Sum of `refund_amount` over the payment's refunds whose status is
`completed`. -/
def completed_refund_sum (s : PaymentRefundSys) : Money :=
  ((s.refunds.filter (fun r => decide (r.status = RefundStatus.completed))).map
    Refund.refund_amount).sum

/-! ## DiscountCode (backend/payments/models.py, class DiscountCode) -/

/-- The `discount_type` choices of `DiscountCode`. -/
inductive DiscountType where
  | percentage
  | fixed_amount
  | free_shipping
  | buy_one_get_one
deriving DecidableEq

/-- The fields of a `DiscountCode` row read by `calculate_discount`.
`max_discount_amount` is nullable. -/
structure DiscountCode where
  discount_type : DiscountType
  discount_value : Money
  max_discount_amount : Option Money
deriving DecidableEq

/-- Method `DiscountCode.calculate_discount(self, order_amount)`:
percentage codes compute `order_amount * discount_value / 100` and cap it
at `max_discount_amount` only when that field is truthy (`None` and `0`
both skip the cap); fixed-amount codes return `min(discount_value,
order_amount)`; every other type returns `0`. -/
def DiscountCode.calculate_discount (d : DiscountCode) (order_amount : Money) : Money :=
  match d.discount_type with
  | DiscountType.percentage =>
      let discount := order_amount * d.discount_value / 100
      match d.max_discount_amount with
      | some m => if m ≠ 0 then min discount m else discount
      | none => discount
  | DiscountType.fixed_amount => min d.discount_value order_amount
  | DiscountType.free_shipping => 0
  | DiscountType.buy_one_get_one => 0

/-! ## Concrete states used as witnesses and counterexamples -/

/-- A ticket type holding 10 tickets, 2 sold and 3 reserved. -/
def c1t : TicketType :=
  { quantity := 10, sold_count := 2, reserved_count := 3, sale_status := SaleStatus.on_sale }

/-- A ticket type with 5 of 8 tickets sold and none reserved. -/
def c5t : TicketType :=
  { quantity := 8, sold_count := 5, reserved_count := 0, sale_status := SaleStatus.on_sale }

/-- A pending booking, payment pending, for customer Ann Okello. -/
def c2booking : Booking :=
  { status := BookingStatus.pending
    payment_status := BookingPayStatus.pending
    confirmed_at := none
    cancelled_at := none
    cancellation_reason := ""
    cancelled_by := none
    customer_first_name := "Ann"
    customer_last_name := "Okello"
    customer_email := "ann@example.com"
    customer_phone := "0700000000" }

/-- A line item of 2 tickets at 50 each on a ticket type with 2 reserved. -/
def c2item : BookingItem :=
  { ticket_type :=
      { quantity := 10, sold_count := 0, reserved_count := 2, sale_status := SaleStatus.on_sale }
    quantity := 2
    unit_price := 50
    service_fee_per_ticket := 5
    tax_per_ticket := 0
    assigned_seats := [] }

/-- A pending payment of 110 over the pending booking with one item of
quantity 2 and no issued tickets. -/
def c2sys : PaymentSys :=
  { payment :=
      { status := PaymentStatus.pending
        amount := 110
        payment_date := none
        gateway_transaction_id := ""
        gateway_response := ""
        gateway_callback_received := false
        retry_count := 0
        max_retries := 3
        last_retry_at := none
        failure_reason := ""
        failure_code := "" }
    booking := c2booking
    items := [c2item]
    tickets := [] }

/-- A cancelled booking whose payment_status is still pending — the state
every booking cancelled before payment is left in, since
`cancel_booking` never touches `payment_status`. -/
def c3booking : Booking :=
  { c2booking with status := BookingStatus.cancelled, cancelled_at := some 100 }

/-- A refunded booking aggregate (terminal in both fields). -/
def c3term : BookingSys :=
  { booking :=
      { c2booking with
          status := BookingStatus.refunded
          payment_status := BookingPayStatus.refunded }
    items := []
    tickets := [] }

/-- An issued, active ticket (blank seat and payment details). -/
def c4ticket : Ticket :=
  { status := TicketStatus.active
    is_checked_in := false
    check_in_time := none
    check_in_location := ""
    checked_in_by := none
    expires_at := none
    purchase_price := 20
    service_fee_paid := 0
    tax_paid := 0
    total_paid := 20
    seat_number := ""
    row_number := ""
    seat_section := ""
    holder_name := "Ann Okello"
    holder_email := "ann@example.com"
    holder_phone := "0700000000" }

/-- A pending booking holding a reservation of 3 tickets and one issued
ticket. -/
def c4sys : BookingSys :=
  { booking := c2booking
    items :=
      [{ ticket_type :=
           { quantity := 10, sold_count := 0, reserved_count := 3,
             sale_status := SaleStatus.on_sale }
         quantity := 3
         unit_price := 20
         service_fee_per_ticket := 0
         tax_per_ticket := 0
         assigned_seats := [] }]
    tickets := [c4ticket] }

/-- A completed payment of 100 with no refunds yet. -/
def c6s0 : PaymentRefundSys :=
  { payment :=
      { status := PaymentStatus.completed
        amount := 100
        payment_date := some 50
        gateway_transaction_id := "TX1"
        gateway_response := ""
        gateway_callback_received := true
        retry_count := 0
        max_retries := 3
        last_retry_at := none
        failure_reason := ""
        failure_code := "" }
    refunds := [] }

/-- First full-amount refund request against `c6s0`. -/
def c6s1 : PaymentRefundSys := (c6s0.process_refund none "requested twice").2

/-- Second full-amount refund request, made while the payment is still
`completed`. -/
def c6s2 : PaymentRefundSys := (c6s1.process_refund none "requested twice").2

/-- Both refunds approved. -/
def c6s3 : PaymentRefundSys := (c6s2.approve 0 9 60 "ok").2

/-- See `c6s3`. -/
def c6s4 : PaymentRefundSys := (c6s3.approve 1 9 61 "ok").2

/-- First refund completed. -/
def c6s5 : PaymentRefundSys := (c6s4.complete_refund 0 70 none).2

/-- Second refund completed: the completed total now exceeds the payment
amount. -/
def c6s6 : PaymentRefundSys := (c6s5.complete_refund 1 71 none).2

/-- A pending payment over a pending booking (no items, no tickets),
used to exercise `mark_completed` twice. -/
def c7sys : PaymentSys :=
  { c2sys with items := [], tickets := [] }

/-- A cancelled payment with retries left, over a still-pending
booking. -/
def c8p : Payment :=
  { status := PaymentStatus.cancelled
    amount := 50
    payment_date := none
    gateway_transaction_id := ""
    gateway_response := ""
    gateway_callback_received := false
    retry_count := 0
    max_retries := 3
    last_retry_at := none
    failure_reason := "user cancelled"
    failure_code := "CANCELLED"
  }

/-- A failed payment with retries left. -/
def c8wp : Payment :=
  { c8p with status := PaymentStatus.failed, failure_reason := "declined", failure_code := "05" }

/-- A percentage code whose cap field is present but zero. -/
def c9zero : DiscountCode :=
  { discount_type := DiscountType.percentage, discount_value := 10,
    max_discount_amount := some 0 }

/-- A fixed-amount code of 30. -/
def c9fixed : DiscountCode :=
  { discount_type := DiscountType.fixed_amount, discount_value := 30,
    max_discount_amount := none }

/-- An already-checked-in ticket. -/
def c10checked : Ticket :=
  { c4ticket with status := TicketStatus.used, is_checked_in := true, check_in_time := some 0 }

/-- A valid, active, never-checked-in ticket with no expiry. -/
def c10ok : Ticket := c4ticket

/-- An event running from 10000 to 20000. -/
def c10ev : EventTimes := { start_date := 10000, end_date := 20000 }

/-- Boolean success test of a check-in outcome. -/
def is_ok (r : Except CheckInError Ticket) : Bool :=
  match r with
  | Except.ok _ => true
  | Except.error _ => false

/-! ## Theorems -/

/-- C1: every Inventory Ledger operation — `reserve_tickets q`,
`release_reservation q` and `sell_tickets q`, for every non-negative
quantity `q` — preserves `sold_count + reserved_count <= quantity` on a
state whose counters satisfy the `PositiveIntegerField` constraint, and
after any `release_reservation q` the resulting `reserved_count` is
non-negative. -/
theorem inventory_conservation (t : TicketType) (q : ℤ) (hq : 0 ≤ q)
    (hsold : 0 ≤ t.sold_count) (hres : 0 ≤ t.reserved_count)
    (hinv : t.conservation) :
    (t.reserve_tickets q).2.conservation ∧
    (t.release_reservation q).conservation ∧
    0 ≤ (t.release_reservation q).reserved_count ∧
    (t.sell_tickets q).2.conservation := by
  unfold TicketType.conservation at *
  refine ⟨?_, ?_, ?_, ?_⟩
  · unfold TicketType.reserve_tickets TicketType.available_count
    split_ifs with h <;> dsimp <;> omega
  · unfold TicketType.release_reservation
    dsimp
    omega
  · unfold TicketType.release_reservation
    dsimp
    omega
  · unfold TicketType.sell_tickets TicketType.available_count
    split_ifs with h h1 <;>
      simp only [apply_ite TicketType.sold_count, apply_ite TicketType.reserved_count,
        apply_ite TicketType.quantity, ite_self] <;>
      (try dsimp) <;> omega

/-- C1 witness: the three operations at quantity 4 on a ticket type with
10 tickets, 2 sold, 3 reserved. -/
theorem inventory_conservation_witness :
    (c1t.reserve_tickets 4).2.conservation ∧
    (c1t.release_reservation 4).conservation ∧
    0 ≤ (c1t.release_reservation 4).reserved_count ∧
    (c1t.sell_tickets 4).2.conservation :=
  inventory_conservation c1t 4 (by decide) (by decide) (by decide) (by decide)

/-- C5: `reserve_tickets q` succeeds exactly when
`q <= available_count`, in which case `reserved_count` grows by exactly
`q` and nothing else changes; on failure the state is returned unchanged;
and `available_count` is `max 0 (quantity - sold_count -
reserved_count)`. -/
theorem reserve_tickets_spec (t : TicketType) (q : ℤ) :
    ((t.reserve_tickets q).1 = true ↔ q ≤ t.available_count) ∧
    (q ≤ t.available_count →
      (t.reserve_tickets q).2 = { t with reserved_count := t.reserved_count + q }) ∧
    (¬ q ≤ t.available_count → (t.reserve_tickets q).2 = t) ∧
    t.available_count = max 0 (t.quantity - t.sold_count - t.reserved_count) := by
  unfold TicketType.reserve_tickets
  split_ifs with h
  · exact ⟨by simp [h], fun _ => rfl, fun h2 => absurd h h2, rfl⟩
  · exact ⟨by simp [h], fun h2 => absurd h2 h, fun _ => rfl, rfl⟩

/-- C5 witness: requesting 2 of the 3 available tickets of `c5t`
succeeds and adds exactly 2 to `reserved_count`. -/
theorem reserve_tickets_spec_witness :
    ((c5t.reserve_tickets 2).1 = true ↔ 2 ≤ c5t.available_count) ∧
    (2 ≤ c5t.available_count →
      (c5t.reserve_tickets 2).2 = { c5t with reserved_count := c5t.reserved_count + 2 }) ∧
    (¬ 2 ≤ c5t.available_count → (c5t.reserve_tickets 2).2 = c5t) ∧
    c5t.available_count = max 0 (c5t.quantity - c5t.sold_count - c5t.reserved_count) :=
  reserve_tickets_spec c5t 2

/-- C2: `Payment.mark_completed` on a pending payment does move the
booking's `payment_status` and `status` to `paid`, but it issues no
tickets — the booking that carried one item of quantity 2 still owns
zero `Ticket` rows afterwards, even though `BookingItem.create_tickets`
(never invoked anywhere in the repository) would have produced exactly
2. -/
theorem mark_completed_issues_no_tickets :
    (c2sys.mark_completed 1000 none none).1 = true ∧
    (c2sys.mark_completed 1000 none none).2.payment.status = PaymentStatus.completed ∧
    (c2sys.mark_completed 1000 none none).2.booking.status = BookingStatus.paid ∧
    (c2sys.mark_completed 1000 none none).2.booking.payment_status = BookingPayStatus.paid ∧
    (c2sys.mark_completed 1000 none none).2.tickets.length = 0 ∧
    (c2item.create_tickets c2booking).length = 2 := by
  decide

/-- C3 counterexample: a booking cancelled before payment (status
`cancelled`, `payment_status` still `pending`) is moved out of its
terminal state by `mark_as_paid`, which returns success and sets
`status` to `paid` — `mark_as_paid` guards on `payment_status` alone. -/
theorem mark_as_paid_escapes_cancelled :
    c3booking.status = BookingStatus.cancelled ∧
    (c3booking.mark_as_paid).1 = true ∧
    (c3booking.mark_as_paid).2.status = BookingStatus.paid := by
  decide

/-- C3 amended: from a terminal status (`cancelled`, `expired` or
`refunded`), `confirm_booking`, `cancel_booking` and `expire_booking`
are no-ops returning failure; `mark_as_paid` is such a no-op exactly
when the booking's `payment_status` is no longer `pending` or
`processing`, since it checks only that field. -/
theorem terminal_transitions_amended (s : BookingSys) (reason : String)
    (u : Option UserId) (now : Time)
    (hterm : s.booking.status = BookingStatus.cancelled ∨
      s.booking.status = BookingStatus.expired ∨
      s.booking.status = BookingStatus.refunded) :
    s.booking.confirm_booking now = (false, s.booking) ∧
    s.cancel_booking reason u now = (false, s) ∧
    s.expire_booking = (false, s) ∧
    (s.booking.payment_status ≠ BookingPayStatus.pending →
      s.booking.payment_status ≠ BookingPayStatus.processing →
      s.booking.mark_as_paid = (false, s.booking)) := by
  refine ⟨?_, ?_, ?_, ?_⟩
  · have h : s.booking.status ≠ BookingStatus.pending := by
      rcases hterm with h | h | h <;> simp [h]
    simp [Booking.confirm_booking, h]
  · have h : ¬ (s.booking.status = BookingStatus.pending ∨
        s.booking.status = BookingStatus.confirmed ∨
        s.booking.status = BookingStatus.paid) := by
      rcases hterm with h | h | h <;> simp [h]
    simp [BookingSys.cancel_booking, h]
  · have h : s.booking.status ≠ BookingStatus.pending := by
      rcases hterm with h | h | h <;> simp [h]
    simp [BookingSys.expire_booking, h]
  · intro h1 h2
    simp [Booking.mark_as_paid, h1, h2]

/-- C3 witness: the amended statement at a refunded booking. -/
theorem terminal_transitions_amended_witness :
    c3term.booking.confirm_booking 0 = (false, c3term.booking) ∧
    c3term.cancel_booking "" none 0 = (false, c3term) ∧
    c3term.expire_booking = (false, c3term) ∧
    (c3term.booking.payment_status ≠ BookingPayStatus.pending →
      c3term.booking.payment_status ≠ BookingPayStatus.processing →
      c3term.booking.mark_as_paid = (false, c3term.booking)) :=
  terminal_transitions_amended c3term "" none 0 (by decide)

/-- C4: `cancel_booking` on a pending booking holding a reservation of 3
succeeds, records the metadata and cancels the issued ticket, but the
item's ticket type keeps `reserved_count = 3` — no reservation is
released (`release_reservation` is never called on the cancel path). -/
theorem cancel_booking_keeps_reservation :
    (c4sys.cancel_booking "changed plans" (some 7) 500).1 = true ∧
    (c4sys.cancel_booking "changed plans" (some 7) 500).2.booking.status =
      BookingStatus.cancelled ∧
    (c4sys.cancel_booking "changed plans" (some 7) 500).2.booking.cancellation_reason =
      "changed plans" ∧
    (c4sys.cancel_booking "changed plans" (some 7) 500).2.booking.cancelled_by = some 7 ∧
    ((c4sys.cancel_booking "changed plans" (some 7) 500).2.tickets.map Ticket.status) =
      [TicketStatus.cancelled] ∧
    ((c4sys.cancel_booking "changed plans" (some 7) 500).2.items.map
      (fun it => it.ticket_type.reserved_count)) = [3] := by
  decide

/-- C6: against a completed payment of amount 100, `process_refund` can
be called twice before either refund completes (both succeed), both
refunds can be approved and completed (all four calls succeed), and the
resulting sum of completed refunds is 200 — strictly more than the
payment's original amount.  No operation on the refund path checks the
cumulative refunded total. -/
theorem refund_conservation_violated :
    c6s0.payment.amount = 100 ∧
    (c6s0.process_refund none "requested twice").1 = true ∧
    (c6s1.process_refund none "requested twice").1 = true ∧
    (c6s2.approve 0 9 60 "ok").1 = true ∧
    (c6s3.approve 1 9 61 "ok").1 = true ∧
    (c6s4.complete_refund 0 70 none).1 = true ∧
    (c6s5.complete_refund 1 71 none).1 = true ∧
    completed_refund_sum c6s6 = 200 ∧
    ¬ completed_refund_sum c6s6 ≤ c6s0.payment.amount := by
  have hsum : completed_refund_sum c6s6 = 200 := by
    simp [completed_refund_sum, c6s6, c6s5, c6s4, c6s3, c6s2, c6s1, c6s0,
      PaymentRefundSys.process_refund, PaymentRefundSys.approve,
      PaymentRefundSys.complete_refund]
    norm_num
  refine ⟨rfl, by decide, by decide, by decide, by decide, by decide, by decide, hsum, ?_⟩
  rw [hsum]
  norm_num [c6s0]

/-- C7: `mark_completed` on a payment in `pending` or `processing`
succeeds and moves it to `completed`; invoking `mark_completed` a second
time, with any arguments, returns failure and leaves the entire
payment-booking-tickets state unchanged — in particular no field changes
and no tickets appear. -/
theorem mark_completed_idempotent (s : PaymentSys) (now now2 : Time)
    (g r g2 r2 : Option String)
    (h : s.payment.status = PaymentStatus.pending ∨
      s.payment.status = PaymentStatus.processing) :
    (s.mark_completed now g r).1 = true ∧
    (s.mark_completed now g r).2.payment.status = PaymentStatus.completed ∧
    ((s.mark_completed now g r).2).mark_completed now2 g2 r2 =
      (false, (s.mark_completed now g r).2) := by
  have h1 : (s.mark_completed now g r).1 = true ∧
      (s.mark_completed now g r).2.payment.status = PaymentStatus.completed := by
    unfold PaymentSys.mark_completed
    rw [if_pos h]
    rcases g with _ | gs <;> rcases r with _ | rs <;> dsimp only <;>
      (try split_ifs) <;> exact ⟨rfl, rfl⟩
  obtain ⟨ha, hb⟩ := h1
  refine ⟨ha, hb, ?_⟩
  set s2 := (s.mark_completed now g r).2 with hs2
  unfold PaymentSys.mark_completed
  rw [if_neg (by simp [hb])]

/-- C7 witness: `mark_completed` twice on the concrete pending payment
`c7sys`. -/
theorem mark_completed_idempotent_witness :
    (c7sys.mark_completed 100 (some "GTX9") none).1 = true ∧
    (c7sys.mark_completed 100 (some "GTX9") none).2.payment.status =
      PaymentStatus.completed ∧
    ((c7sys.mark_completed 100 (some "GTX9") none).2).mark_completed 200 none none =
      (false, (c7sys.mark_completed 100 (some "GTX9") none).2) :=
  mark_completed_idempotent c7sys 100 200 (some "GTX9") none none none (by decide)

/-- C8 counterexample: a payment whose status is `cancelled` (not
`failed`), with retries left and a pending booking, is retried
successfully — `is_failed` counts `cancelled` and `expired` as failed,
so `retry_payment` moves the payment back to `pending` and increments
`retry_count`, where the claim demands failure with no state change. -/
theorem retry_from_cancelled_succeeds :
    c8p.status = PaymentStatus.cancelled ∧
    (c8p.retry_payment BookingStatus.pending 0).1 = true ∧
    (c8p.retry_payment BookingStatus.pending 0).2.status = PaymentStatus.pending ∧
    (c8p.retry_payment BookingStatus.pending 0).2.retry_count = c8p.retry_count + 1 := by
  decide

/-- C8 amended: `retry_payment` succeeds exactly when the payment
`is_failed` — status `failed`, `cancelled` or `expired` — with
`retry_count < max_retries` and the owning booking still `pending`; on
success the status returns to `pending`, `retry_count` increments and
the failure fields are cleared; in every other case it fails with no
state change. -/
theorem retry_payment_spec (p : Payment) (bs : BookingStatus) (now : Time) :
    ((p.retry_payment bs now).1 = true ↔
      (p.is_failed ∧ p.retry_count < p.max_retries ∧ bs = BookingStatus.pending)) ∧
    ((p.retry_payment bs now).1 = true →
      (p.retry_payment bs now).2 =
        { p with
            status := PaymentStatus.pending
            retry_count := p.retry_count + 1
            last_retry_at := some now
            failure_reason := ""
            failure_code := "" }) ∧
    ((p.retry_payment bs now).1 = false → (p.retry_payment bs now).2 = p) := by
  unfold Payment.retry_payment
  split_ifs with h
  · unfold Payment.can_retry at h
    exact ⟨by simp [h], fun _ => rfl, by simp⟩
  · unfold Payment.can_retry at h
    exact ⟨by simp [h], by simp, fun _ => rfl⟩

/-- C8 witness: the amended statement at the concrete failed payment
`c8wp` over a pending booking. -/
theorem retry_payment_spec_witness :
    ((c8wp.retry_payment BookingStatus.pending 5).1 = true ↔
      (c8wp.is_failed ∧ c8wp.retry_count < c8wp.max_retries ∧
        BookingStatus.pending = BookingStatus.pending)) ∧
    ((c8wp.retry_payment BookingStatus.pending 5).1 = true →
      (c8wp.retry_payment BookingStatus.pending 5).2 =
        { c8wp with
            status := PaymentStatus.pending
            retry_count := c8wp.retry_count + 1
            last_retry_at := some 5
            failure_reason := ""
            failure_code := "" }) ∧
    ((c8wp.retry_payment BookingStatus.pending 5).1 = false →
      (c8wp.retry_payment BookingStatus.pending 5).2 = c8wp) :=
  retry_payment_spec c8wp BookingStatus.pending 5

/-- C9 counterexample: a 10-percent code whose `max_discount_amount` is
present but equal to 0 is not capped — on an order of 1000 it returns
100, exceeding the cap, because `if self.max_discount_amount:` is false
for a zero `Decimal`. -/
theorem discount_zero_cap_not_applied :
    c9zero.discount_type = DiscountType.percentage ∧
    c9zero.max_discount_amount = some 0 ∧
    c9zero.calculate_discount 1000 = 100 ∧
    ¬ c9zero.calculate_discount 1000 ≤ 0 := by
  refine ⟨rfl, rfl, ?_, ?_⟩ <;> norm_num [c9zero, DiscountCode.calculate_discount]

/-- C9 amended: `calculate_discount` of a fixed-amount code never
exceeds the order amount; of a percentage code whose
`max_discount_amount` is set to a nonzero value it never exceeds that
cap (a zero cap is falsy in Python and is skipped); and the 10-percent
code capped at 5000 yields 5000 on an order of 100000, not 10000. -/
theorem discount_bounds (d : DiscountCode) (m amount : Money) :
    (d.discount_type = DiscountType.fixed_amount → d.calculate_discount amount ≤ amount) ∧
    (d.discount_type = DiscountType.percentage → d.max_discount_amount = some m →
      m ≠ 0 → d.calculate_discount amount ≤ m) ∧
    DiscountCode.calculate_discount
      { discount_type := DiscountType.percentage, discount_value := 10,
        max_discount_amount := some 5000 } 100000 = 5000 := by
  refine ⟨?_, ?_, ?_⟩
  · intro h
    simp only [DiscountCode.calculate_discount, h]
    exact min_le_right _ _
  · intro hp hm hmz
    simp only [DiscountCode.calculate_discount, hp, hm]
    rw [if_pos hmz]
    exact min_le_right _ _
  · norm_num [DiscountCode.calculate_discount]

/-- C9 witness: the amended bounds at the fixed-amount code `c9fixed`,
cap value 5000, order amount 100. -/
theorem discount_bounds_witness :
    (c9fixed.discount_type = DiscountType.fixed_amount →
      c9fixed.calculate_discount 100 ≤ 100) ∧
    (c9fixed.discount_type = DiscountType.percentage →
      c9fixed.max_discount_amount = some 5000 → (5000 : Money) ≠ 0 →
      c9fixed.calculate_discount 100 ≤ 5000) ∧
    DiscountCode.calculate_discount
      { discount_type := DiscountType.percentage, discount_value := 10,
        max_discount_amount := some 5000 } 100000 = 5000 :=
  discount_bounds c9fixed 5000 100

/-- Helper: a ticket that `is_valid` is in particular not checked in. -/
theorem is_valid_not_checked {t : Ticket} {now : Time}
    (h : t.is_valid now = true) : t.is_checked_in = false := by
  unfold Ticket.is_valid at h
  simp only [Bool.and_eq_true, Bool.not_eq_true', decide_eq_true_eq] at h
  exact h.1.2

/-- C10 counterexample: an already-checked-in ticket presented inside
the valid time window is rejected by the serializer with the generic
"ticket not valid" reason, not with the distinct already-checked-in
reason — the `already_checked_in` branch sits after the `is_valid`
check, which already excludes checked-in tickets. -/
theorem check_in_checked_in_not_distinct :
    c10checked.is_checked_in = true ∧
    c10ev.start_date - twoHours ≤ 15000 ∧ (15000 : ℤ) ≤ c10ev.end_date ∧
    check_in_validate c10checked c10ev 15000 = some CheckInError.ticket_not_valid ∧
    check_in_validate c10checked c10ev 15000 ≠ some CheckInError.already_checked_in := by
  decide

/-- C10 amended: check-in (serializer validation then
`Ticket.check_in`) succeeds exactly when the ticket `is_valid` and the
current time lies in `[start_date - 2h, end_date]`; on success the
returned ticket is checked in with status `used`; the failure reasons
`event_ended`, `not_yet_open` and `ticket_not_valid` are distinct, but
`already_checked_in` is never produced — a checked-in ticket is
reported as not valid. -/
theorem check_in_spec (t : Ticket) (ev : EventTimes) (now : Time)
    (location : String) (u : Option UserId) :
    (is_ok (check_in_flow t ev now location u) = true ↔
      (t.is_valid now = true ∧ ev.start_date - twoHours ≤ now ∧ now ≤ ev.end_date)) ∧
    (is_ok (check_in_flow t ev now location u) = true →
      check_in_flow t ev now location u =
        Except.ok
          { t with
              is_checked_in := true
              check_in_time := some now
              check_in_location := location
              checked_in_by := u
              status := TicketStatus.used }) ∧
    check_in_validate t ev now ≠ some CheckInError.already_checked_in := by
  by_cases hv : t.is_valid now = true
  · have hci : t.is_checked_in = false := is_valid_not_checked hv
    by_cases h3 : ev.end_date < now
    · have hval : check_in_validate t ev now = some CheckInError.event_ended := by
        unfold check_in_validate
        rw [if_neg (by simp [hv]), if_neg (by simp [hci]), if_pos h3]
      have hflow : check_in_flow t ev now location u =
          Except.error CheckInError.event_ended := by
        unfold check_in_flow
        rw [hval]
      refine ⟨?_, ?_, ?_⟩
      · rw [hflow]
        exact iff_of_false (by simp [is_ok])
          (by rintro ⟨-, -, hle⟩; exact absurd hle (not_le.mpr h3))
      · intro hcontra
        rw [hflow] at hcontra
        simp [is_ok] at hcontra
      · rw [hval]
        simp
    · by_cases h4 : now < ev.start_date - twoHours
      · have hval : check_in_validate t ev now = some CheckInError.not_yet_open := by
          unfold check_in_validate
          rw [if_neg (by simp [hv]), if_neg (by simp [hci]), if_neg h3, if_pos h4]
        have hflow : check_in_flow t ev now location u =
            Except.error CheckInError.not_yet_open := by
          unfold check_in_flow
          rw [hval]
        refine ⟨?_, ?_, ?_⟩
        · rw [hflow]
          exact iff_of_false (by simp [is_ok])
            (by rintro ⟨-, hge, -⟩; exact absurd hge (not_le.mpr h4))
        · intro hcontra
          rw [hflow] at hcontra
          simp [is_ok] at hcontra
        · rw [hval]
          simp
      · have hval : check_in_validate t ev now = none := by
          unfold check_in_validate
          rw [if_neg (by simp [hv]), if_neg (by simp [hci]), if_neg h3, if_neg h4]
        have hflow : check_in_flow t ev now location u =
            Except.ok
              { t with
                  is_checked_in := true
                  check_in_time := some now
                  check_in_location := location
                  checked_in_by := u
                  status := TicketStatus.used } := by
          unfold check_in_flow
          rw [hval]
          unfold Ticket.check_in
          rw [if_pos (by simp [hv, hci])]
        refine ⟨?_, ?_, ?_⟩
        · rw [hflow]
          exact iff_of_true (by simp [is_ok]) ⟨hv, not_lt.mp h4, not_lt.mp h3⟩
        · intro _
          exact hflow
        · rw [hval]
          simp
  · have hv2 : t.is_valid now = false := by simpa using hv
    have hval : check_in_validate t ev now = some CheckInError.ticket_not_valid := by
      unfold check_in_validate
      rw [if_pos (by simp [hv2])]
    have hflow : check_in_flow t ev now location u =
        Except.error CheckInError.ticket_not_valid := by
      unfold check_in_flow
      rw [hval]
    refine ⟨?_, ?_, ?_⟩
    · rw [hflow]
      exact iff_of_false (by simp [is_ok]) (by simp [hv2])
    · intro hcontra
      rw [hflow] at hcontra
      simp [is_ok] at hcontra
    · rw [hval]
      simp

/-- C10 witness: the amended check-in contract at the valid ticket
`c10ok`, presented at time 15000 during the event `c10ev`. -/
theorem check_in_spec_witness :
    (is_ok (check_in_flow c10ok c10ev 15000 "Gate A" (some 3)) = true ↔
      (c10ok.is_valid 15000 = true ∧ c10ev.start_date - twoHours ≤ 15000 ∧
        (15000 : Time) ≤ c10ev.end_date)) ∧
    (is_ok (check_in_flow c10ok c10ev 15000 "Gate A" (some 3)) = true →
      check_in_flow c10ok c10ev 15000 "Gate A" (some 3) =
        Except.ok
          { c10ok with
              is_checked_in := true
              check_in_time := some 15000
              check_in_location := "Gate A"
              checked_in_by := some 3
              status := TicketStatus.used }) ∧
    check_in_validate c10ok c10ev 15000 ≠ some CheckInError.already_checked_in :=
  check_in_spec c10ok c10ev 15000 "Gate A" (some 3)

end EventFlow
